import Mathlib

/-!
Shallow embedding of the FPL scraper (`src/Scraper.py`).

The scraper fetches pages `1 .. total_pages` from a remote HTTP API.  Each
page is handled by `fetch_page`, a retry loop of at most `max_attempts`
attempts; each attempt acquires a semaphore slot, performs the remote call,
and either writes the page's records to the shared output file, sleeps a
backoff delay and retries, records the page in the global `failed_attempts`
ledger, or re-raises a cancellation.

The embedding abstracts the network by an environment `env : Nat →
AttemptResult` giving, for each attempt index, the outcome the remote call
produces on that attempt.  `fetch_page` then deterministically produces a
trace of events (semaphore acquire/release, backoff sleeps, output line
writes, ledger appends) mirroring the control flow of the Python code
line by line.
-/

namespace Scraper

/-- `league_id` constant (Scraper.py line 14). -/
def league_id : Nat := 314

/-- `max_concurrent_requests` constant (Scraper.py line 15): the semaphore
capacity. -/
def max_concurrent_requests : Nat := 50

/-- `total_pages` constant (Scraper.py line 16). -/
def total_pages : Nat := 214849

/-- `max_attempts` (Scraper.py line 25): attempt ceiling of the retry loop. -/
def max_attempts : Nat := 5

/-- One upstream entry of `standings.results` (the fields read at
Scraper.py lines 56-58). -/
structure Player where
  player_name : String
  entry_name : String
  entry : Nat
deriving Repr, DecidableEq

/-- One output record, as built at Scraper.py lines 55-59
(`{'Full Name': …, 'Team Name': …, 'Player ID': …}`). -/
structure PlayerObj where
  fullName : String
  teamName : String
  playerId : Nat
deriving Repr, DecidableEq

/-- The mapping from an upstream entry to the output record
(Scraper.py lines 55-59). -/
def playerObj (p : Player) : PlayerObj :=
  { fullName := p.player_name, teamName := p.entry_name, playerId := p.entry }

/-- The JSON body of a 2xx response, as inspected at Scraper.py line 52:
either it has the nested keys `standings.results` (with the list of
entries), or it is missing them. -/
inductive Body where
  | good (results : List Player)
  | malformed
deriving Repr, DecidableEq

/-- The outcome the remote call produces on one attempt, covering the
branches of the `try` block of Scraper.py lines 34-110:
an HTTP response with a status and (when read) a body; an
`aiohttp.ClientResponseError` with a status; a connection-level error
(`ClientConnectionError` / `ClientOSError`); a cancellation
(`asyncio.CancelledError`); or any other unexpected exception. -/
inductive AttemptResult where
  | http (status : Nat) (body : Body)
  | clientResponseError (status : Nat)
  | connectionError
  | cancelled
  | unexpectedError
deriving Repr, DecidableEq

/-- How one call of `fetch_page` resolves: normal return after a success
(Scraper.py line 67), normal return with the page recorded as failed
(lines 73, 90, 115), or propagation of `asyncio.CancelledError`
(line 103). -/
inductive FetchResult where
  | success
  | failed
  | cancelledEscape
deriving Repr, DecidableEq

/-- Events emitted by one `fetch_page` call, in program order:
semaphore acquisition and release (the `async with semaphore` scope,
line 28), a backoff sleep of a given duration in seconds (`await
asyncio.sleep`, lines 41, 48, 85, 87, 97, 110), one line written to the
output file (line 60), and one append to the global `failed_attempts`
list (lines 72, 89, 115). -/
inductive Ev where
  | acquire
  | release
  | sleep (d : Nat)
  | writeLine (r : PlayerObj)
  | recordFailed (page : Nat)
deriving Repr, DecidableEq

/-- The observable behaviour of one `fetch_page` call: its event trace and
how it resolved. -/
structure FetchTrace where
  events : List Ev
  result : FetchResult
  attemptsUsed : Nat
deriving Repr, DecidableEq

/-- The body of the `for attempt in range(max_attempts)` loop of
`fetch_page` (Scraper.py lines 27-110), followed by the post-loop
exhaustion code (lines 112-115).  `attempt` is the current 0-based attempt
index and `fuel` the number of loop iterations still available
(`max_attempts - attempt` at every call).  Each iteration acquires the
semaphore, consults the environment for the outcome of the remote call,
and mirrors the Python control flow: `continue` becomes a recursive call,
`return` and `raise` end the trace (the `async with semaphore` scope emits
its `release` on every exit path, exceptional ones included). -/
def fetchLoop (page : Nat) (env : Nat → AttemptResult) :
    Nat → Nat → FetchTrace
  | _attempt, 0 =>
      -- lines 112-115: the loop exhausted all attempts
      { events := [Ev.recordFailed page], result := FetchResult.failed,
        attemptsUsed := max_attempts }
  | attempt, fuel + 1 =>
      match env attempt with
      | AttemptResult.http status body =>
          if status = 429 then
            -- lines 36-42: rate limited, wait 5 * 2^attempt and retry
            let t := fetchLoop page env (attempt + 1) fuel
            { t with events :=
                Ev.acquire :: Ev.sleep (5 * 2 ^ attempt) :: Ev.release ::
                  t.events }
          else if 200 ≤ status ∧ status < 300 then
            match body with
            | Body.good results =>
                -- lines 51-67: write every record, then return
                { events :=
                    Ev.acquire ::
                      (results.map (fun p => Ev.writeLine (playerObj p)) ++
                        [Ev.release]),
                  result := FetchResult.success,
                  attemptsUsed := attempt + 1 }
            | Body.malformed =>
                -- lines 68-73: expected keys missing, record and return
                { events := [Ev.acquire, Ev.recordFailed page, Ev.release],
                  result := FetchResult.failed,
                  attemptsUsed := attempt + 1 }
          else
            -- lines 44-49: bad status, wait 2^attempt and retry
            let t := fetchLoop page env (attempt + 1) fuel
            { t with events :=
                Ev.acquire :: Ev.sleep (2 ^ attempt) :: Ev.release ::
                  t.events }
      | AttemptResult.clientResponseError status =>
          if 500 ≤ status ∧ status < 600 then
            -- lines 80-85: server error, wait 2^attempt and retry
            let t := fetchLoop page env (attempt + 1) fuel
            { t with events :=
                Ev.acquire :: Ev.sleep (2 ^ attempt) :: Ev.release ::
                  t.events }
          else if attempt = max_attempts - 1 then
            -- lines 86-90 with attempt == max_attempts - 1:
            -- sleep 2, record the page, return
            { events :=
                [Ev.acquire, Ev.sleep 2, Ev.recordFailed page, Ev.release],
              result := FetchResult.failed,
              attemptsUsed := attempt + 1 }
          else
            -- lines 86-87 otherwise: sleep 2 and fall through to retry
            let t := fetchLoop page env (attempt + 1) fuel
            { t with events :=
                Ev.acquire :: Ev.sleep 2 :: Ev.release :: t.events }
      | AttemptResult.connectionError =>
          -- lines 92-97: connection error, wait 2^attempt and retry
          let t := fetchLoop page env (attempt + 1) fuel
          { t with events :=
              Ev.acquire :: Ev.sleep (2 ^ attempt) :: Ev.release ::
                t.events }
      | AttemptResult.cancelled =>
          -- lines 99-103: re-raise the cancellation; the semaphore scope
          -- still releases its slot, and nothing is recorded
          { events := [Ev.acquire, Ev.release],
            result := FetchResult.cancelledEscape,
            attemptsUsed := attempt + 1 }
      | AttemptResult.unexpectedError =>
          -- lines 105-110: unexpected exception, wait 2^attempt and retry
          let t := fetchLoop page env (attempt + 1) fuel
          { t with events :=
              Ev.acquire :: Ev.sleep (2 ^ attempt) :: Ev.release ::
                t.events }

/-- `fetch_page` (Scraper.py lines 23-115) for one page under environment
`env`. -/
def fetch_page (page : Nat) (env : Nat → AttemptResult) : FetchTrace :=
  fetchLoop page env 0 max_attempts

/-- The output lines a trace wrote to the shared file, in order. -/
def writtenLines (t : FetchTrace) : List PlayerObj :=
  t.events.filterMap (fun e =>
    match e with
    | Ev.writeLine r => some r
    | _ => none)

/-- The pages a trace appended to the global `failed_attempts` list,
in order (one entry per executed append). -/
def recordedPages (t : FetchTrace) : List Nat :=
  t.events.filterMap (fun e =>
    match e with
    | Ev.recordFailed p => some p
    | _ => none)

/-- The backoff sleeps a trace performed, in order. -/
def sleepDurations (t : FetchTrace) : List Nat :=
  t.events.filterMap (fun e =>
    match e with
    | Ev.sleep d => some d
    | _ => none)

/-- The kinds of failure the backoff expressions of `fetch_page`
distinguish: rate limiting (line 37), a 5xx server error (line 81), and
the generic retryable failures (bad status line 48, connection error
line 93, unexpected error line 106). -/
inductive FailureKind where
  | rateLimited
  | serverError
  | generic
deriving Repr, DecidableEq

/-- The backoff delay, in seconds, before the retry following the attempt
with 0-based index `attempt`, as computed inline by `fetch_page`:
`5 * (2 ** attempt)` at line 37 for a 429, `2 ** attempt` at lines 48, 81,
93, 106 for the other retried kinds. -/
def delay (attempt : Nat) (kind : FailureKind) : Nat :=
  match kind with
  | FailureKind.rateLimited => 5 * 2 ^ attempt
  | FailureKind.serverError => 2 ^ attempt
  | FailureKind.generic => 2 ^ attempt

/-- The pages `main` enumerates (Scraper.py line 133:
`for page in range(1, total_pages + 1)`), generalised over the page
count. -/
def pageList (totalPages : Nat) : List Nat :=
  (List.range totalPages).map (fun i => i + 1)

/-- The orchestrator's work (Scraper.py lines 131-144): one fetch task per
page, all created before the single `asyncio.gather`; each task's
behaviour under the per-page environment `envs page`. -/
def runTraces (totalPages : Nat) (envs : Nat → Nat → AttemptResult) :
    List (Nat × FetchTrace) :=
  (pageList totalPages).map (fun p => (p, fetch_page p (envs p)))

/-- The contents of the global `failed_attempts` list after the run
(Scraper.py line 17 and the appends at lines 72, 89, 115): every ledger
append any task performed.  (The real interleaving determines only the
order of this list, not its contents.) -/
def failed_attempts (totalPages : Nat) (envs : Nat → Nat → AttemptResult) :
    List Nat :=
  ((runTraces totalPages envs).map (fun pt => recordedPages pt.2)).flatten

/-- The lines present in `player_data.json` after the run
(Scraper.py line 60): every line any task wrote. -/
def outputLines (totalPages : Nat) (envs : Nat → Nat → AttemptResult) :
    List PlayerObj :=
  ((runTraces totalPages envs).map (fun pt => writtenLines pt.2)).flatten

/-- The run summary printed at Scraper.py lines 146-155:
`failed_count = len(failed_attempts)`,
`success_count = total_pages - failed_count`. -/
structure RunSummary where
  totalPages : Nat
  succeeded : Nat
  failed : Nat
deriving Repr, DecidableEq

/-- The summary computation of Scraper.py lines 147-148. -/
def runSummary (totalPages : Nat) (envs : Nat → Nat → AttemptResult) :
    RunSummary :=
  { totalPages := totalPages,
    failed := (failed_attempts totalPages envs).length,
    succeeded := totalPages - (failed_attempts totalPages envs).length }

/-- The failure report document written at Scraper.py lines 157-158:
`{'Failed Pages': failed_attempts}`. -/
structure FailureReport where
  failedPages : List Nat
deriving Repr, DecidableEq

/-- Writing the failure report (Scraper.py lines 157-158). -/
def failureReport (totalPages : Nat) (envs : Nat → Nat → AttemptResult) :
    FailureReport :=
  { failedPages := failed_attempts totalPages envs }

/-- Semaphore-scope discipline of an event list, checked at nesting depth
`d` (`0` = slot not held, `1` = slot held): an `acquire` happens only when
the slot is not held, a `release` and a backoff `sleep` only while it is
held, and the list ends with the slot released.  This is the shape the
`async with semaphore` block of Scraper.py line 28 gives every attempt:
acquire/release are paired on every exit path (`continue`, `return` and
`raise` alike) and every backoff sleep sits inside the pair. -/
def evBal : List Ev → Nat → Bool
  | [], d => d == 0
  | Ev.acquire :: es, d => d == 0 && evBal es 1
  | Ev.release :: es, d => d == 1 && evBal es 0
  | Ev.sleep _ :: es, d => d == 1 && evBal es d
  | Ev.writeLine _ :: es, d => evBal es d
  | Ev.recordFailed _ :: es, d => evBal es d

/-- `retries r attempt` holds when outcome `r` at 0-based index `attempt`
makes the loop of `fetch_page` continue to the next attempt: a 429, a
non-2xx status, a 5xx `ClientResponseError`, a non-5xx
`ClientResponseError` before the last attempt, a connection error, or an
unexpected error. -/
def retries (r : AttemptResult) (attempt : Nat) : Prop :=
  match r with
  | AttemptResult.http s _ => s = 429 ∨ ¬ (200 ≤ s ∧ s < 300)
  | AttemptResult.clientResponseError s =>
      (500 ≤ s ∧ s < 600) ∨ attempt ≠ max_attempts - 1
  | AttemptResult.connectionError => True
  | AttemptResult.cancelled => False
  | AttemptResult.unexpectedError => True

/-- State of the semaphore system: the remaining event list of every
task, and the number of tasks currently past `acquire` and before
`release` (`asyncio.Semaphore`'s used-slot count, Scraper.py
line 127). -/
structure SemState where
  tasks : List (List Ev)
  inFlight : Nat
deriving Repr, DecidableEq

/-- One scheduler step of the semaphore system with capacity `cap`: some
task consumes its next event.  An `acquire` can fire only while fewer
than `cap` slots are used (the semaphore suspends the task otherwise); a
`release` frees a slot; every other event leaves the count unchanged.
This models `asyncio`'s cooperative interleaving of the fetch tasks. -/
inductive SemStep (cap : Nat) : SemState → SemState → Prop where
  | acquire (l1 l2 : List (List Ev)) (rest : List Ev) (n : Nat)
      (h : n < cap) :
      SemStep cap ⟨l1 ++ (Ev.acquire :: rest) :: l2, n⟩
        ⟨l1 ++ rest :: l2, n + 1⟩
  | release (l1 l2 : List (List Ev)) (rest : List Ev) (n : Nat) :
      SemStep cap ⟨l1 ++ (Ev.release :: rest) :: l2, n⟩
        ⟨l1 ++ rest :: l2, n - 1⟩
  | other (l1 l2 : List (List Ev)) (e : Ev) (rest : List Ev) (n : Nat)
      (h : e ≠ Ev.acquire ∧ e ≠ Ev.release) :
      SemStep cap ⟨l1 ++ (e :: rest) :: l2, n⟩ ⟨l1 ++ rest :: l2, n⟩

/-- Invariant of the semaphore system: each task's remaining events
respect the scope discipline at some depth (0 or forced by the events),
and the used-slot count equals the number of tasks currently at depth 1.
-/
def SemInv (cap : Nat) (s : SemState) : Prop :=
  s.inFlight ≤ cap ∧
    ∃ ds : List Nat,
      List.Forall₂ (fun t d => evBal t d = true) s.tasks ds ∧
        s.inFlight = ds.sum

end Scraper

-- sanity checks on small concrete environments
example :
    Scraper.fetch_page 7 (fun _ => Scraper.AttemptResult.cancelled) =
      { events := [Scraper.Ev.acquire, Scraper.Ev.release],
        result := Scraper.FetchResult.cancelledEscape,
        attemptsUsed := 1 } := by
  decide

example :
    Scraper.sleepDurations
        (Scraper.fetch_page 3
          (fun _ => Scraper.AttemptResult.http 500 Scraper.Body.malformed)) =
      [1, 2, 4, 8, 16] := by
  decide

example :
    Scraper.recordedPages
        (Scraper.fetch_page 3
          (fun _ => Scraper.AttemptResult.http 500 Scraper.Body.malformed)) =
      [3] := by
  decide

example :
    (Scraper.fetch_page 3
        (fun _ => Scraper.AttemptResult.http 200 Scraper.Body.malformed)) =
      { events := [Scraper.Ev.acquire, Scraper.Ev.recordFailed 3,
          Scraper.Ev.release],
        result := Scraper.FetchResult.failed, attemptsUsed := 1 } := by
  decide

example :
    (Scraper.fetch_page 2
        (fun a =>
          if a = 0 then Scraper.AttemptResult.clientResponseError 404
          else Scraper.AttemptResult.http 204 (Scraper.Body.good []))).result =
      Scraper.FetchResult.success := by
  decide

namespace Scraper

theorem recordedPages_good (l : List Player) (r : FetchResult) (a : Nat) :
    recordedPages
        { events :=
            Ev.acquire :: (l.map (fun p => Ev.writeLine (playerObj p)) ++
              [Ev.release]),
          result := r, attemptsUsed := a } = [] := by
  simp only [recordedPages, List.filterMap_cons]
  induction l with
  | nil => rfl
  | cons p l ih => simp [ih]

theorem writtenLines_good (l : List Player) (r : FetchResult) (a : Nat) :
    writtenLines
        { events :=
            Ev.acquire :: (l.map (fun p => Ev.writeLine (playerObj p)) ++
              [Ev.release]),
          result := r, attemptsUsed := a } = l.map playerObj := by
  simp only [writtenLines, List.filterMap_cons]
  induction l with
  | nil => rfl
  | cons p l ih => simp [ih]

theorem sleepDurations_good (l : List Player) (r : FetchResult) (a : Nat) :
    sleepDurations
        { events :=
            Ev.acquire :: (l.map (fun p => Ev.writeLine (playerObj p)) ++
              [Ev.release]),
          result := r, attemptsUsed := a } = [] := by
  simp only [sleepDurations, List.filterMap_cons]
  induction l with
  | nil => rfl
  | cons p l ih => simp [ih]

/-- The ledger appends of one `fetch_page` loop are determined by how it
resolves: a loop that resolves `failed` appended its own page once, any
other resolution appended nothing. -/
theorem recordedPages_fetchLoop (page : Nat) (env : Nat → AttemptResult) :
    ∀ fuel attempt,
      recordedPages (fetchLoop page env attempt fuel) =
        if (fetchLoop page env attempt fuel).result = FetchResult.failed
          then [page] else [] := by
  intro fuel
  induction fuel with
  | zero =>
      intro attempt
      simp [fetchLoop, recordedPages]
  | succ n ih =>
      intro attempt
      have ih' := ih (attempt + 1)
      cases henv : env attempt with
      | http status body =>
          by_cases h429 : status = 429
          · simpa [fetchLoop, henv, h429, recordedPages] using ih'
          · by_cases h2xx : 200 ≤ status ∧ status < 300
            · cases body with
              | good results =>
                  simp [fetchLoop, henv, h429, h2xx, recordedPages_good]
              | malformed =>
                  simp [fetchLoop, henv, h429, h2xx, recordedPages]
            · simpa [fetchLoop, henv, h429, h2xx, recordedPages] using ih'
      | clientResponseError status =>
          by_cases h5xx : 500 ≤ status ∧ status < 600
          · simpa [fetchLoop, henv, h5xx, recordedPages] using ih'
          · by_cases hlast : attempt = max_attempts - 1
            · subst hlast
              simp [fetchLoop, henv, h5xx, recordedPages]
            · simpa [fetchLoop, henv, h5xx, hlast, recordedPages] using ih'
      | connectionError =>
          simpa [fetchLoop, henv, recordedPages] using ih'
      | cancelled =>
          simp [fetchLoop, henv, recordedPages]
      | unexpectedError =>
          simpa [fetchLoop, henv, recordedPages] using ih'

/-- A loop that does not resolve `Success` wrote no output lines. -/
theorem writtenLines_fetchLoop (page : Nat) (env : Nat → AttemptResult) :
    ∀ fuel attempt,
      (fetchLoop page env attempt fuel).result ≠ FetchResult.success →
        writtenLines (fetchLoop page env attempt fuel) = [] := by
  intro fuel
  induction fuel with
  | zero =>
      intro attempt _
      simp [fetchLoop, writtenLines]
  | succ n ih =>
      intro attempt hres
      have ih' := ih (attempt + 1)
      cases henv : env attempt with
      | http status body =>
          by_cases h429 : status = 429
          · have hres' : (fetchLoop page env (attempt + 1) n).result ≠
                FetchResult.success := by
              simpa [fetchLoop, henv, h429] using hres
            simpa [fetchLoop, henv, h429, writtenLines] using ih' hres'
          · by_cases h2xx : 200 ≤ status ∧ status < 300
            · cases body with
              | good results =>
                  exact absurd (by simp [fetchLoop, henv, h429, h2xx]) hres
              | malformed =>
                  simp [fetchLoop, henv, h429, h2xx, writtenLines]
            · have hres' : (fetchLoop page env (attempt + 1) n).result ≠
                  FetchResult.success := by
                simpa [fetchLoop, henv, h429, h2xx] using hres
              simpa [fetchLoop, henv, h429, h2xx, writtenLines] using ih' hres'
      | clientResponseError status =>
          by_cases h5xx : 500 ≤ status ∧ status < 600
          · have hres' : (fetchLoop page env (attempt + 1) n).result ≠
                FetchResult.success := by
              simpa [fetchLoop, henv, h5xx] using hres
            simpa [fetchLoop, henv, h5xx, writtenLines] using ih' hres'
          · by_cases hlast : attempt = max_attempts - 1
            · subst hlast
              simp [fetchLoop, henv, h5xx, writtenLines]
            · have hres' : (fetchLoop page env (attempt + 1) n).result ≠
                  FetchResult.success := by
                simpa [fetchLoop, henv, h5xx, hlast] using hres
              simpa [fetchLoop, henv, h5xx, hlast, writtenLines] using ih' hres'
      | connectionError =>
          have hres' : (fetchLoop page env (attempt + 1) n).result ≠
              FetchResult.success := by
            simpa [fetchLoop, henv] using hres
          simpa [fetchLoop, henv, writtenLines] using ih' hres'
      | cancelled =>
          simp [fetchLoop, henv, writtenLines]
      | unexpectedError =>
          have hres' : (fetchLoop page env (attempt + 1) n).result ≠
              FetchResult.success := by
            simpa [fetchLoop, henv] using hres
          simpa [fetchLoop, henv, writtenLines] using ih' hres'

theorem evBal_writes (l : List Player) (rest : List Ev) (d : Nat) :
    evBal (l.map (fun p => Ev.writeLine (playerObj p)) ++ rest) d =
      evBal rest d := by
  induction l with
  | nil => rfl
  | cons p l ih => simpa [evBal] using ih

/-- Every `fetch_page` event trace obeys the semaphore-scope discipline:
starting outside the scope it alternates acquire/release correctly,
performs all sleeps while the slot is held, and ends with the slot
released — on success, terminal failure and cancellation alike. -/
theorem evBal_fetchLoop (page : Nat) (env : Nat → AttemptResult) :
    ∀ fuel attempt, evBal (fetchLoop page env attempt fuel).events 0 = true := by
  intro fuel
  induction fuel with
  | zero =>
      intro attempt
      simp [fetchLoop, evBal]
  | succ n ih =>
      intro attempt
      cases henv : env attempt with
      | http status body =>
          by_cases h429 : status = 429
          · simpa [fetchLoop, henv, h429, evBal] using ih (attempt + 1)
          · by_cases h2xx : 200 ≤ status ∧ status < 300
            · cases body with
              | good results =>
                  simp [fetchLoop, henv, h429, h2xx, evBal, evBal_writes]
              | malformed =>
                  simp [fetchLoop, henv, h429, h2xx, evBal]
            · simpa [fetchLoop, henv, h429, h2xx, evBal] using ih (attempt + 1)
      | clientResponseError status =>
          by_cases h5xx : 500 ≤ status ∧ status < 600
          · simpa [fetchLoop, henv, h5xx, evBal] using ih (attempt + 1)
          · by_cases hlast : attempt = max_attempts - 1
            · subst hlast
              simp [fetchLoop, henv, h5xx, evBal]
            · simpa [fetchLoop, henv, h5xx, hlast, evBal] using ih (attempt + 1)
      | connectionError =>
          simpa [fetchLoop, henv, evBal] using ih (attempt + 1)
      | cancelled =>
          simp [fetchLoop, henv, evBal]
      | unexpectedError =>
          simpa [fetchLoop, henv, evBal] using ih (attempt + 1)

theorem forall2_split {R : List Ev → Nat → Prop} :
    ∀ (l1 : List (List Ev)) (x : List Ev) (l2 : List (List Ev))
      (ds : List Nat),
      List.Forall₂ R (l1 ++ x :: l2) ds →
        ∃ ds1 d ds2, ds = ds1 ++ d :: ds2 ∧ List.Forall₂ R l1 ds1 ∧
          R x d ∧ List.Forall₂ R l2 ds2 := by
  intro l1
  induction l1 with
  | nil =>
      intro x l2 ds h
      cases h with
      | cons hd tl => exact ⟨[], _, _, rfl, List.Forall₂.nil, hd, tl⟩
  | cons a l1 ih =>
      intro x l2 ds h
      cases h with
      | cons hd tl =>
          obtain ⟨ds1, d, ds2, rfl, h1, hx, h2⟩ := ih x l2 _ tl
          exact ⟨_ :: ds1, d, ds2, rfl, List.Forall₂.cons hd h1, hx, h2⟩

/-- One scheduler step preserves the semaphore invariant. -/
theorem semInv_step {cap : Nat} {s s' : SemState} (hstep : SemStep cap s s')
    (hinv : SemInv cap s) : SemInv cap s' := by
  obtain ⟨hcap, ds, hfa, hsum⟩ := hinv
  cases hstep with
  | acquire l1 l2 rest n hlt =>
      obtain ⟨ds1, d, ds2, rfl, h1, hx, h2⟩ := forall2_split l1 _ l2 ds hfa
      have hd : d = 0 ∧ evBal rest 1 = true := by
        simpa [evBal, Bool.and_eq_true] using hx
      have hsum' : n = (ds1 ++ d :: ds2).sum := hsum
      refine ⟨?_, ds1 ++ 1 :: ds2, ?_, ?_⟩
      · show n + 1 ≤ cap
        omega
      · exact List.rel_append h1 (List.Forall₂.cons hd.2 h2)
      · show n + 1 = (ds1 ++ 1 :: ds2).sum
        have h0 := hd.1
        simp only [List.sum_append, List.sum_cons] at hsum' ⊢
        omega
  | release l1 l2 rest n =>
      obtain ⟨ds1, d, ds2, rfl, h1, hx, h2⟩ := forall2_split l1 _ l2 ds hfa
      have hd : d = 1 ∧ evBal rest 0 = true := by
        simpa [evBal, Bool.and_eq_true] using hx
      have hcap' : n ≤ cap := hcap
      have hsum' : n = (ds1 ++ d :: ds2).sum := hsum
      refine ⟨?_, ds1 ++ 0 :: ds2, ?_, ?_⟩
      · show n - 1 ≤ cap
        omega
      · exact List.rel_append h1 (List.Forall₂.cons hd.2 h2)
      · show n - 1 = (ds1 ++ 0 :: ds2).sum
        have h1' := hd.1
        simp only [List.sum_append, List.sum_cons] at hsum' ⊢
        omega
  | other l1 l2 e rest n hne =>
      obtain ⟨ds1, d, ds2, rfl, h1, hx, h2⟩ := forall2_split l1 _ l2 ds hfa
      have hrest : evBal rest d = true := by
        cases e with
        | acquire => exact absurd rfl hne.1
        | release => exact absurd rfl hne.2
        | sleep d' => exact (by simpa [evBal, Bool.and_eq_true] using hx :
            d = 1 ∧ evBal rest d = true).2
        | writeLine r => simpa [evBal] using hx
        | recordFailed p => simpa [evBal] using hx
      exact ⟨hcap, ds1 ++ d :: ds2,
        List.rel_append h1 (List.Forall₂.cons hrest h2), hsum⟩

/-- The semaphore invariant holds in every reachable state. -/
theorem semInv_reachable {cap : Nat} {s0 s : SemState}
    (h : Relation.ReflTransGen (SemStep cap) s0 s) (h0 : SemInv cap s0) :
    SemInv cap s := by
  induction h with
  | refl => exact h0
  | tail _hclos hstep ih => exact semInv_step hstep ih

theorem forall2_evBal_init (envs : Nat → Nat → AttemptResult) :
    ∀ pages : List Nat,
      List.Forall₂ (fun t d => evBal t d = true)
        (pages.map (fun p => (fetch_page p (envs p)).events))
        (List.replicate pages.length 0) := by
  intro pages
  induction pages with
  | nil => exact List.Forall₂.nil
  | cons p ps ih =>
      exact List.Forall₂.cons (evBal_fetchLoop p (envs p) max_attempts 0) ih

/-- The semaphore invariant holds in the initial state: every task is a
full `fetch_page` trace and no slot is in use. -/
theorem semInv_init (cap : Nat) (pages : List Nat)
    (envs : Nat → Nat → AttemptResult) :
    SemInv cap
      ⟨pages.map (fun p => (fetch_page p (envs p)).events), 0⟩ := by
  refine ⟨Nat.zero_le _, List.replicate pages.length 0,
    forall2_evBal_init envs pages, ?_⟩
  simp

theorem flatten_recorded_eq_filter (envs : Nat → Nat → AttemptResult) :
    ∀ L : List Nat,
      (L.map (fun p => recordedPages (fetch_page p (envs p)))).flatten =
        L.filter (fun p =>
          decide ((fetch_page p (envs p)).result = FetchResult.failed)) := by
  intro L
  induction L with
  | nil => rfl
  | cons p L ih =>
      have hrec : recordedPages (fetch_page p (envs p)) =
          if (fetch_page p (envs p)).result = FetchResult.failed
            then [p] else [] :=
        recordedPages_fetchLoop p (envs p) max_attempts 0
      by_cases hres : (fetch_page p (envs p)).result = FetchResult.failed
      · simp [List.filter_cons, hres, hrec, ih]
      · simp [List.filter_cons, hres, hrec, ih]

/-- The final contents of the ledger are exactly the pages whose fetch
resolved `failed`, in page order. -/
theorem failed_attempts_eq_filter (n : Nat)
    (envs : Nat → Nat → AttemptResult) :
    failed_attempts n envs =
      (pageList n).filter (fun p =>
        decide ((fetch_page p (envs p)).result = FetchResult.failed)) := by
  have h := flatten_recorded_eq_filter envs (pageList n)
  simpa [failed_attempts, runTraces, List.map_map, Function.comp] using h

theorem mem_failed_attempts (n page : Nat)
    (envs : Nat → Nat → AttemptResult) :
    page ∈ failed_attempts n envs ↔
      page ∈ pageList n ∧
        (fetch_page page (envs page)).result = FetchResult.failed := by
  rw [failed_attempts_eq_filter]
  simp [List.mem_filter]

theorem mem_pageList (n p : Nat) : p ∈ pageList n ↔ 1 ≤ p ∧ p ≤ n := by
  simp only [pageList, List.mem_map, List.mem_range]
  constructor
  · rintro ⟨a, ha, rfl⟩
    omega
  · rintro ⟨h1, h2⟩
    exact ⟨p - 1, by omega, by omega⟩

theorem nodup_pageList (n : Nat) : (pageList n).Nodup :=
  List.Nodup.map (fun a b h => by omega) (List.nodup_range n)

theorem nodup_failed_attempts (n : Nat)
    (envs : Nat → Nat → AttemptResult) :
    (failed_attempts n envs).Nodup := by
  rw [failed_attempts_eq_filter]
  exact (nodup_pageList n).filter _

theorem length_pageList (n : Nat) : (pageList n).length = n := by
  simp [pageList]

theorem failed_attempts_length_le (n : Nat)
    (envs : Nat → Nat → AttemptResult) :
    (failed_attempts n envs).length ≤ n := by
  rw [failed_attempts_eq_filter]
  calc ((pageList n).filter _).length ≤ (pageList n).length :=
        List.length_filter_le _ _
    _ = n := length_pageList n

/-- C2: the backoff delay is the pure function `delay` of the attempt
index and failure kind: `5 * 2^attempt` for a rate limit, `2^attempt` for
a server error and for the generic retryable failures, each strictly
increasing in the attempt index; and the sleeps `fetch_page` actually
performs under an environment failing every attempt with the given kind
are precisely `delay 0 kind, …, delay (max_attempts-1) kind`. -/
theorem c2_backoff_policy :
    (∀ a : Nat,
      delay a FailureKind.rateLimited = 5 * 2 ^ a ∧
      delay a FailureKind.serverError = 2 ^ a ∧
      delay a FailureKind.generic = 2 ^ a ∧
      delay a FailureKind.rateLimited < delay (a + 1) FailureKind.rateLimited ∧
      delay a FailureKind.serverError < delay (a + 1) FailureKind.serverError ∧
      delay a FailureKind.generic < delay (a + 1) FailureKind.generic) ∧
    sleepDurations
        (fetch_page 1 (fun _ => AttemptResult.http 429 Body.malformed)) =
      (List.range max_attempts).map (fun a => delay a FailureKind.rateLimited) ∧
    sleepDurations
        (fetch_page 1 (fun _ => AttemptResult.clientResponseError 500)) =
      (List.range max_attempts).map (fun a => delay a FailureKind.serverError) ∧
    sleepDurations (fetch_page 1 (fun _ => AttemptResult.connectionError)) =
      (List.range max_attempts).map (fun a => delay a FailureKind.generic) := by
  refine ⟨?_, by decide, by decide, by decide⟩
  intro a
  have h2 : 2 ^ a < 2 ^ (a + 1) := Nat.pow_lt_pow_succ (by norm_num)
  exact ⟨rfl, rfl, rfl, by simp only [delay]; omega,
    by simp only [delay]; omega, by simp only [delay]; omega⟩

/-- C3: a page whose remote call returns HTTP status 500 on every attempt
is recorded as failed after exactly `max_attempts` attempts, and the total
backoff wait is at least the sum of the first `max_attempts - 1`
server-error backoff delays. -/
theorem c3_exhaustion_500 (page : Nat) (env : Nat → AttemptResult)
    (h : ∀ a, a < max_attempts → ∃ b, env a = AttemptResult.http 500 b) :
    (fetch_page page env).result = FetchResult.failed ∧
    (fetch_page page env).attemptsUsed = max_attempts ∧
    recordedPages (fetch_page page env) = [page] ∧
    ((List.range (max_attempts - 1)).map
        (fun a => delay a FailureKind.serverError)).sum ≤
      (sleepDurations (fetch_page page env)).sum := by
  obtain ⟨b0, h0⟩ := h 0 (by norm_num [max_attempts])
  obtain ⟨b1, h1⟩ := h 1 (by norm_num [max_attempts])
  obtain ⟨b2, h2⟩ := h 2 (by norm_num [max_attempts])
  obtain ⟨b3, h3⟩ := h 3 (by norm_num [max_attempts])
  obtain ⟨b4, h4⟩ := h 4 (by norm_num [max_attempts])
  have htrace : fetch_page page env =
      { events := [Ev.acquire, Ev.sleep 1, Ev.release,
          Ev.acquire, Ev.sleep 2, Ev.release,
          Ev.acquire, Ev.sleep 4, Ev.release,
          Ev.acquire, Ev.sleep 8, Ev.release,
          Ev.acquire, Ev.sleep 16, Ev.release,
          Ev.recordFailed page],
        result := FetchResult.failed, attemptsUsed := max_attempts } := by
    simp [fetch_page, max_attempts, fetchLoop, h0, h1, h2, h3, h4]
  rw [htrace]
  refine ⟨rfl, rfl, rfl, ?_⟩
  norm_num [sleepDurations, delay, max_attempts, List.range_succ,
    List.filterMap_cons]

/-- C4: a page whose remote call returns a 2xx response whose body lacks
the expected nested keys is recorded as failed immediately: one single
attempt, no backoff sleep. -/
theorem c4_malformed_no_retry (page status : Nat)
    (env : Nat → AttemptResult)
    (henv : env 0 = AttemptResult.http status Body.malformed)
    (h2xx : 200 ≤ status ∧ status < 300) :
    (fetch_page page env).result = FetchResult.failed ∧
    (fetch_page page env).attemptsUsed = 1 ∧
    recordedPages (fetch_page page env) = [page] ∧
    sleepDurations (fetch_page page env) = [] := by
  have h429 : ¬ (status = 429) := by omega
  have htrace : fetch_page page env =
      { events := [Ev.acquire, Ev.recordFailed page, Ev.release],
        result := FetchResult.failed, attemptsUsed := 1 } := by
    simp [fetch_page, max_attempts, fetchLoop, henv, h429, h2xx]
  rw [htrace]
  exact ⟨rfl, rfl, rfl, rfl⟩

/-- C4 witness: a 200 response with a malformed body on the first attempt
fails immediately with no retries and no sleeps. -/
theorem c4_malformed_no_retry_witness :
    (fetch_page 9 (fun _ => AttemptResult.http 200 Body.malformed)).result =
        FetchResult.failed ∧
    (fetch_page 9
        (fun _ => AttemptResult.http 200 Body.malformed)).attemptsUsed = 1 ∧
    recordedPages
        (fetch_page 9 (fun _ => AttemptResult.http 200 Body.malformed)) =
      [9] ∧
    sleepDurations
        (fetch_page 9 (fun _ => AttemptResult.http 200 Body.malformed)) =
      [] :=
  c4_malformed_no_retry 9 200 (fun _ => AttemptResult.http 200 Body.malformed)
    rfl (by norm_num)

/-- C3 witness: a page answered with a 500 on all five attempts. -/
theorem c3_exhaustion_500_witness :
    (fetch_page 3 (fun _ => AttemptResult.http 500 Body.malformed)).result =
        FetchResult.failed ∧
    (fetch_page 3
        (fun _ => AttemptResult.http 500 Body.malformed)).attemptsUsed =
      max_attempts ∧
    recordedPages
        (fetch_page 3 (fun _ => AttemptResult.http 500 Body.malformed)) =
      [3] ∧
    ((List.range (max_attempts - 1)).map
        (fun a => delay a FailureKind.serverError)).sum ≤
      (sleepDurations
          (fetch_page 3 (fun _ => AttemptResult.http 500 Body.malformed))).sum :=
  c3_exhaustion_500 3 (fun _ => AttemptResult.http 500 Body.malformed)
    (fun _ _ => ⟨Body.malformed, rfl⟩)

/-- C6: the Failure Ledger is written at most once per page: a successful
page records nothing, a terminally failed page records exactly its own
page number once, and across a whole run no page number is counted twice
in the ledger. -/
theorem c6_ledger_at_most_once (page : Nat) (env : Nat → AttemptResult) :
    (recordedPages (fetch_page page env)).length ≤ 1 ∧
    ((fetch_page page env).result = FetchResult.success →
      recordedPages (fetch_page page env) = []) ∧
    ((fetch_page page env).result = FetchResult.failed →
      recordedPages (fetch_page page env) = [page]) ∧
    ∀ n (envs : Nat → Nat → AttemptResult),
      (failed_attempts n envs).count page ≤ 1 := by
  have hrec : recordedPages (fetch_page page env) =
      if (fetch_page page env).result = FetchResult.failed
        then [page] else [] :=
    recordedPages_fetchLoop page env max_attempts 0
  refine ⟨?_, ?_, ?_, ?_⟩
  · rw [hrec]
    split <;> simp
  · intro hs
    rw [hrec, if_neg]
    rw [hs]
    simp
  · intro hf
    rw [hrec, if_pos hf]
  · intro n envs
    exact List.nodup_iff_count_le_one.mp (nodup_failed_attempts n envs) page

/-- C9: the RunSummary's succeeded count is `totalPages` minus the ledger
length, not a count of pages actually written: a page succeeding with an
empty results list writes no output line yet counts as succeeded, and a
cancelled page (captured by `return_exceptions=True`) is neither written
nor recorded yet also counts as succeeded. -/
theorem c9_succeeded_by_subtraction :
    (∀ n (envs : Nat → Nat → AttemptResult),
      (runSummary n envs).succeeded = n - (failed_attempts n envs).length ∧
      (runSummary n envs).failed = (failed_attempts n envs).length) ∧
    (outputLines 1 (fun _ _ => AttemptResult.http 200 (Body.good [])) = [] ∧
      (fetch_page 1 (fun _ => AttemptResult.http 200 (Body.good []))).result =
        FetchResult.success ∧
      (runSummary 1
          (fun _ _ => AttemptResult.http 200 (Body.good []))).succeeded = 1) ∧
    ((fetch_page 1 (fun _ => AttemptResult.cancelled)).result =
        FetchResult.cancelledEscape ∧
      outputLines 1 (fun _ _ => AttemptResult.cancelled) = [] ∧
      failed_attempts 1 (fun _ _ => AttemptResult.cancelled) = [] ∧
      (runSummary 1 (fun _ _ => AttemptResult.cancelled)).succeeded = 1) :=
  ⟨fun _ _ => ⟨rfl, rfl⟩, ⟨by decide, by decide, by decide⟩,
    ⟨by decide, by decide, by decide, by decide⟩⟩

/-- C1 counterexample: with one page whose single attempt returns HTTP
200 with a well-formed body holding an empty results list, the run
completes with the page resolved as a success, yet the page appears in
neither the output stream (zero records written) nor the failure report —
so "every page appears in exactly one of the two" fails as stated. -/
theorem c1_counterexample :
    (fetch_page 1 (fun _ => AttemptResult.http 200 (Body.good []))).result =
        FetchResult.success ∧
    outputLines 1 (fun _ _ => AttemptResult.http 200 (Body.good [])) = [] ∧
    failed_attempts 1 (fun _ _ => AttemptResult.http 200 (Body.good [])) =
      [] ∧
    ¬ ((writtenLines
            (fetch_page 1 (fun _ => AttemptResult.http 200 (Body.good []))) ≠
            [] ∧
          1 ∉ failed_attempts 1
              (fun _ _ => AttemptResult.http 200 (Body.good []))) ∨
        (writtenLines
            (fetch_page 1 (fun _ => AttemptResult.http 200 (Body.good []))) =
            [] ∧
          1 ∈ failed_attempts 1
              (fun _ _ => AttemptResult.http 200 (Body.good [])))) := by
  decide

/-- C1 (amended): after a completed run, no page is both a success and in
the failure report, and every page of the range whose fetch was not
cancelled is exactly one of the two — resolved as Success (its records,
possibly zero of them, written to the output stream) or present in the
failure report. -/
theorem c1_page_partition (n page : Nat)
    (envs : Nat → Nat → AttemptResult) (hpage : page ∈ pageList n) :
    ¬ ((fetch_page page (envs page)).result = FetchResult.success ∧
        page ∈ failed_attempts n envs) ∧
    ((fetch_page page (envs page)).result ≠ FetchResult.cancelledEscape →
      ((fetch_page page (envs page)).result = FetchResult.success ↔
        page ∉ failed_attempts n envs)) := by
  have hmem := mem_failed_attempts n page envs
  constructor
  · rintro ⟨hs, hf⟩
    have hres := (hmem.mp hf).2
    rw [hs] at hres
    cases hres
  · intro hnc
    constructor
    · intro hs hf
      have hres := (hmem.mp hf).2
      rw [hs] at hres
      cases hres
    · intro hnf
      cases hres : (fetch_page page (envs page)).result with
      | success => rfl
      | failed => exact absurd (hmem.mpr ⟨hpage, hres⟩) hnf
      | cancelledEscape => exact absurd hres hnc

/-- C1 witness: the amended partition at a concrete one-page run whose
page succeeds. -/
theorem c1_page_partition_witness :
    ¬ ((fetch_page 1
            ((fun _ _ => AttemptResult.http 200 (Body.good [])) 1)).result =
          FetchResult.success ∧
        1 ∈ failed_attempts 1
            (fun _ _ => AttemptResult.http 200 (Body.good []))) ∧
    ((fetch_page 1
          ((fun _ _ => AttemptResult.http 200 (Body.good [])) 1)).result ≠
        FetchResult.cancelledEscape →
      ((fetch_page 1
            ((fun _ _ => AttemptResult.http 200 (Body.good [])) 1)).result =
          FetchResult.success ↔
        1 ∉ failed_attempts 1
            (fun _ _ => AttemptResult.http 200 (Body.good [])))) :=
  c1_page_partition 1 1 (fun _ _ => AttemptResult.http 200 (Body.good []))
    (by decide)

theorem sum_zero_of_forall2_empty :
    ∀ (ts : List (List Ev)) (ds : List Nat),
      List.Forall₂ (fun t d => evBal t d = true) ts ds →
        (∀ t ∈ ts, t = []) → ds.sum = 0 := by
  intro ts ds h
  induction h with
  | nil => intro; rfl
  | @cons t d ts' ds' hd _htl ih =>
      intro hall
      have ht : t = [] := hall t (List.mem_cons_self t ts')
      rw [ht] at hd
      have hd0 : d = 0 := by simpa [evBal] using hd
      have hrest : ds'.sum = 0 :=
        ih (fun u hu => hall u (List.mem_cons_of_mem _ hu))
      simp [hd0, hrest]

/-- C5: with the Rate Gate capacity fixed at the configured concurrency
limit, in every state the scheduler can reach by interleaving the
`fetch_page` tasks of any set of pages, at most `max_concurrent_requests`
tasks are past `acquire` and before `release`; and when every task has run
to completion — by any exit path, exceptional ones included — every slot
has been released (no slot is leaked). -/
theorem c5_rate_gate (envs : Nat → Nat → AttemptResult) (pages : List Nat)
    (s : SemState)
    (hreach : Relation.ReflTransGen (SemStep max_concurrent_requests)
      ⟨pages.map (fun p => (fetch_page p (envs p)).events), 0⟩ s) :
    s.inFlight ≤ max_concurrent_requests ∧
    ((∀ t ∈ s.tasks, t = []) → s.inFlight = 0) := by
  have hinv := semInv_reachable hreach
    (semInv_init max_concurrent_requests pages envs)
  obtain ⟨hcap, ds, hfa, hsum⟩ := hinv
  refine ⟨hcap, ?_⟩
  intro hdone
  rw [hsum]
  exact sum_zero_of_forall2_empty s.tasks ds hfa hdone

/-- C5 witness: a one-page run under cancellation, stepped all the way to
completion: its slot was acquired and released again. -/
theorem c5_rate_gate_witness :
    (SemState.mk [([] : List Ev)] 0).inFlight ≤ max_concurrent_requests ∧
    ((∀ t ∈ (SemState.mk [([] : List Ev)] 0).tasks, t = []) →
      (SemState.mk [([] : List Ev)] 0).inFlight = 0) := by
  refine c5_rate_gate (fun _ _ => AttemptResult.cancelled) [1] ⟨[[]], 0⟩ ?_
  have h1 : SemStep max_concurrent_requests
      ⟨[[Ev.acquire, Ev.release]], 0⟩ ⟨[[Ev.release]], 1⟩ :=
    SemStep.acquire [] [] [Ev.release] 0
      (by norm_num [max_concurrent_requests])
  have h2 : SemStep max_concurrent_requests
      ⟨[[Ev.release]], 1⟩ ⟨[[]], 0⟩ :=
    SemStep.release [] [] [] 1
  exact Relation.ReflTransGen.tail (Relation.ReflTransGen.single h1) h2

/-- C7: the run creates exactly one fetch task per page of
`[1, totalPages]` (in order, without duplicates), computes the summary
from the completed tasks, and always produces both a RunSummary with
`succeeded + failed = totalPages` and a failure report shaped
`{"Failed Pages": [...]}` — also when a nonzero number of pages failed,
as the concrete failing run shows. -/
theorem c7_run_structure :
    (∀ n (envs : Nat → Nat → AttemptResult),
      (runTraces n envs).map Prod.fst = pageList n ∧
      (runTraces n envs).length = n ∧
      (pageList n).Nodup ∧
      (∀ p, p ∈ pageList n ↔ 1 ≤ p ∧ p ≤ n) ∧
      (failureReport n envs).failedPages = failed_attempts n envs ∧
      (runSummary n envs).failed = (failed_attempts n envs).length ∧
      (runSummary n envs).succeeded + (runSummary n envs).failed = n) ∧
    (failureReport 1
        (fun _ _ => AttemptResult.http 500 Body.malformed)).failedPages =
      [1] ∧
    (runSummary 1
        (fun _ _ => AttemptResult.http 500 Body.malformed)).succeeded = 0 ∧
    (runSummary 1
        (fun _ _ => AttemptResult.http 500 Body.malformed)).failed = 1 := by
  refine ⟨?_, by decide, by decide, by decide⟩
  intro n envs
  refine ⟨?_, ?_, nodup_pageList n, fun p => mem_pageList n p, rfl, rfl, ?_⟩
  · simp [runTraces, List.map_map, Function.comp_def]
  · simp [runTraces, length_pageList]
  · have hle := failed_attempts_length_le n envs
    simp only [runSummary]
    omega

theorem cancel_aux (page : Nat) (env : Nat → AttemptResult) :
    ∀ k fuel attempt, k < fuel →
      (∀ j, j < k → retries (env (attempt + j)) (attempt + j)) →
      env (attempt + k) = AttemptResult.cancelled →
      (fetchLoop page env attempt fuel).result =
        FetchResult.cancelledEscape := by
  intro k
  induction k with
  | zero =>
      intro fuel attempt hk _hr hc
      cases fuel with
      | zero => omega
      | succ n =>
          rw [Nat.add_zero] at hc
          simp [fetchLoop, hc]
  | succ k ih =>
      intro fuel attempt hk hr hc
      cases fuel with
      | zero => omega
      | succ n =>
          have h0 : retries (env attempt) attempt := by
            simpa using hr 0 (by omega)
          have hr' : ∀ j, j < k →
              retries (env (attempt + 1 + j)) (attempt + 1 + j) := by
            intro j hj
            have e : attempt + (j + 1) = attempt + 1 + j := by omega
            have := hr (j + 1) (by omega)
            rwa [e] at this
          have hc' : env (attempt + 1 + k) = AttemptResult.cancelled := by
            have e : attempt + (k + 1) = attempt + 1 + k := by omega
            rwa [e] at hc
          have ihres := ih n (attempt + 1) (by omega) hr' hc'
          cases henv : env attempt with
          | http status body =>
              rw [henv] at h0
              simp only [retries] at h0
              by_cases h429 : status = 429
              · simpa [fetchLoop, henv, h429] using ihres
              · have h2xx : ¬ (200 ≤ status ∧ status < 300) := by
                  rcases h0 with h | h
                  · exact absurd h h429
                  · exact h
                simpa [fetchLoop, henv, h429, h2xx] using ihres
          | clientResponseError status =>
              rw [henv] at h0
              simp only [retries] at h0
              by_cases h5 : 500 ≤ status ∧ status < 600
              · simpa [fetchLoop, henv, h5] using ihres
              · have hlast : ¬ (attempt = max_attempts - 1) := by
                  rcases h0 with h | h
                  · exact absurd h h5
                  · exact h
                simpa [fetchLoop, henv, h5, hlast] using ihres
          | connectionError =>
              simpa [fetchLoop, henv] using ihres
          | cancelled =>
              rw [henv] at h0
              simp [retries] at h0
          | unexpectedError =>
              simpa [fetchLoop, henv] using ihres

/-- C8: when the attempt at index `k` receives a cancellation signal
(after `k` retried attempts), `fetch_page` re-raises it — the call
resolves by propagating the cancellation, not as a retry or terminal
outcome — it appends nothing to the ledger, and the page is absent from
any run's failure report whose environment gives this page that
behaviour. -/
theorem c8_cancellation_propagates (page k : Nat)
    (env : Nat → AttemptResult) (hk : k < max_attempts)
    (hretry : ∀ j, j < k → retries (env j) j)
    (hcancel : env k = AttemptResult.cancelled) :
    (fetch_page page env).result = FetchResult.cancelledEscape ∧
    recordedPages (fetch_page page env) = [] ∧
    ∀ n (envs : Nat → Nat → AttemptResult), envs page = env →
      page ∉ failed_attempts n envs := by
  have hres : (fetch_page page env).result = FetchResult.cancelledEscape :=
    cancel_aux page env k max_attempts 0 hk
      (fun j hj => by simpa using hretry j hj) (by simpa using hcancel)
  have hrec : recordedPages (fetch_page page env) =
      if (fetch_page page env).result = FetchResult.failed
        then [page] else [] :=
    recordedPages_fetchLoop page env max_attempts 0
  refine ⟨hres, ?_, ?_⟩
  · rw [hrec, if_neg]
    rw [hres]
    simp
  · intro n envs he hmem
    have hfail := (mem_failed_attempts n page envs).mp hmem |>.2
    rw [he, hres] at hfail
    cases hfail

/-- C8 witness: cancellation arriving on the very first attempt. -/
theorem c8_cancellation_propagates_witness :
    (fetch_page 5 (fun _ => AttemptResult.cancelled)).result =
        FetchResult.cancelledEscape ∧
    recordedPages (fetch_page 5 (fun _ => AttemptResult.cancelled)) = [] ∧
    ∀ n (envs : Nat → Nat → AttemptResult),
      envs 5 = (fun _ => AttemptResult.cancelled) →
        5 ∉ failed_attempts n envs :=
  c8_cancellation_propagates 5 0 (fun _ => AttemptResult.cancelled)
    (by norm_num [max_attempts]) (fun j hj => absurd hj (Nat.not_lt_zero j))
    rfl

/-- C10: every backoff sleep of `fetch_page` happens while the task holds
the semaphore slot of the current attempt: each trace obeys the scope
discipline `evBal` in which an acquire happens only with the slot free, a
release and every sleep only with the slot held, and the trace ends with
the slot released (so the slot is given up exactly at each attempt's scope
exit and re-acquired for the next attempt). -/
theorem c10_sleeps_hold_the_slot (page : Nat) (env : Nat → AttemptResult) :
    evBal (fetch_page page env).events 0 = true :=
  evBal_fetchLoop page env max_attempts 0

end Scraper
